import Mathlib

/-!
# Verification of the CNPM project-based learning backend (authorization core)

A shallow embedding of the backend's authorization and task-board logic:

* `app/api/deps.py` — `get_current_user`, `require_role`
* `app/api/v1/projects.py` — `create_project`
* `app/api/v1/endpoints/tasks.py` — sprint/task CRUD, the fast-path status
  update, and the sprint statistics aggregation.

The relational store is modelled as lists of rows; every endpoint handler
becomes a pure function `DB → args → Except ApiError (DB × response)`.
An `Except.error` outcome models an `HTTPException` raised before the
single commit, so the stored state is unchanged exactly when the result
is an error.  Python truthiness of `Optional` fields is modelled
explicitly (`None` and the empty string are falsy).
-/

namespace CNPM

/-- HTTP-level failure taxonomy.  Each constructor carries the (static part
of the) `detail` message of the corresponding `HTTPException`. -/
inductive ApiError where
  | unauthenticated (detail : String)
  | forbidden (detail : String)
  | notFound (detail : String)
  | badRequest (detail : String)
  | internalError (detail : String)
  deriving DecidableEq, Repr

/-- The HTTP status code each error kind maps to. -/
def ApiError.statusCode : ApiError → Nat
  | .unauthenticated _ => 401
  | .forbidden _ => 403
  | .notFound _ => 404
  | .badRequest _ => 400
  | .internalError _ => 500

/-- Is this error a 403 `Forbidden`? -/
def ApiError.isForbidden : ApiError → Bool
  | .forbidden _ => true
  | _ => false

/-- Is this error a 401 `Unauthenticated`? -/
def ApiError.isUnauthenticated : ApiError → Bool
  | .unauthenticated _ => true
  | _ => false

/-- Python's `str.upper()` (ASCII role/status names only appear here):
character-wise upper-casing, defined structurally on the character list so
that concrete instances reduce in the kernel. -/
def pyUpper (s : String) : String :=
  String.mk (s.data.map Char.toUpper)

/-- Python truthiness of an `Optional[str]`: `None` and `""` are falsy. -/
def pyTruthy : Option String → Bool
  | none => false
  | some s => s != ""

/-- Python truthiness of an `Optional[int]`: `None` and `0` are falsy. -/
def pyTruthyNat : Option Nat → Bool
  | none => false
  | some n => n != 0

-- ==========================================
-- Data model (rows of `app/models/all_models.py`, fields the handlers use)
-- ==========================================

/-- A `User` row with its `Role` relationship preloaded
(`selectinload(User.role)`); `role_name` is `user.role.role_name`. -/
structure User where
  user_id : String
  role_id : Nat
  role_name : String
  is_active : Bool
  deriving DecidableEq, Repr

/-- A `Topic` row (fields used by `create_project`). -/
structure Topic where
  topic_id : Nat
  status : Option String
  deriving DecidableEq, Repr

/-- A `Project` row. -/
structure Project where
  project_id : Nat
  project_name : Option String
  topic_id : Nat
  class_id : Nat
  status : Option String
  deriving DecidableEq, Repr

/-- A `Team` row (fields used by the task-board handlers). -/
structure Team where
  team_id : Nat
  leader_id : String
  deriving DecidableEq, Repr

/-- A `TeamMember` row: membership of a student in a team. -/
structure TeamMember where
  team_id : Nat
  student_id : String
  is_active : Bool
  deriving DecidableEq, Repr

/-- A `Sprint` row.  Dates are abstracted as `Nat` codes. -/
structure Sprint where
  sprint_id : Nat
  team_id : Nat
  title : Option String
  start_date : Option Nat
  end_date : Option Nat
  status : Option String
  deriving DecidableEq, Repr

/-- A `Task` row.  `sprint_id = none` means the task sits in the backlog. -/
structure Task where
  task_id : Nat
  sprint_id : Option Nat
  title : Option String
  description : Option String
  assignee_id : Option String
  priority : Option String
  status : Option String
  due_date : Option Nat
  deriving DecidableEq, Repr

/-- The relational store: one list of rows per table, plus the
auto-increment counters handed out on insert. -/
structure DB where
  users : List User
  topics : List Topic
  projects : List Project
  teams : List Team
  team_members : List TeamMember
  sprints : List Sprint
  tasks : List Task
  next_project_id : Nat
  next_sprint_id : Nat
  next_task_id : Nat
  deriving DecidableEq, Repr

/-- `SELECT ... WHERE pk = id` point lookups. -/
def DB.findUser (db : DB) (uid : String) : Option User :=
  db.users.find? (fun u => u.user_id == uid)

def DB.findTopic (db : DB) (tid : Nat) : Option Topic :=
  db.topics.find? (fun t => t.topic_id == tid)

def DB.findTeam (db : DB) (tid : Nat) : Option Team :=
  db.teams.find? (fun t => t.team_id == tid)

def DB.findSprint (db : DB) (sid : Nat) : Option Sprint :=
  db.sprints.find? (fun s => s.sprint_id == sid)

def DB.findTask (db : DB) (tid : Nat) : Option Task :=
  db.tasks.find? (fun t => t.task_id == tid)

/-- The ORM relationship `task.sprint`: the sprint row referenced by
`task.sprint_id`, or `None` for a backlog task. -/
def DB.taskSprint (db : DB) (task : Task) : Option Sprint :=
  match task.sprint_id with
  | none => none
  | some sid => db.findSprint sid

-- ==========================================
-- `app/api/deps.py`
-- ==========================================

/-- Outcome of `jose.jwt.decode(token, SECRET_KEY, algorithms=[ALGORITHM])`,
abstracting the JWT library: a malformed, signature-invalid or expired
token raises `JWTError`; otherwise decoding yields a payload whose `sub`
claim may be absent. -/
inductive TokenDecode where
  | malformed
  | badSignature
  | expired
  | payload (sub : Option String)
  deriving DecidableEq, Repr

/-- `deps.get_current_user`: decode the bearer token, look the subject up
in the `users` table (role preloaded), reject deactivated accounts. -/
def get_current_user (db : DB) (token : TokenDecode) : Except ApiError User :=
  match token with
  | .malformed => .error (.unauthenticated "Could not validate credentials")
  | .badSignature => .error (.unauthenticated "Could not validate credentials")
  | .expired => .error (.unauthenticated "Could not validate credentials")
  | .payload sub =>
    match sub with
    | none => .error (.unauthenticated "Could not validate credentials")
    | some uid =>
      match db.findUser uid with
      | none => .error (.unauthenticated "Could not validate credentials")
      | some user =>
        if !user.is_active then
          .error (.forbidden "User account is deactivated")
        else
          .ok user

/-- `deps.require_role(*allowed_roles)` applied to an already-authenticated
user: compare `user.role.role_name.upper()` against the upper-cased
allowed list. -/
def require_role (allowed_roles : List String) (current_user : User) :
    Except ApiError User :=
  let user_role := pyUpper current_user.role_name
  if !((allowed_roles.map pyUpper).contains user_role) then
    .error (.forbidden "Access denied")
  else
    .ok current_user

-- ==========================================
-- `app/api/v1/projects.py`
-- ==========================================

/-- Request body `ProjectCreate`. -/
structure ProjectCreate where
  project_name : Option String
  topic_id : Nat
  class_id : Nat
  deriving DecidableEq, Repr

/-- `create_project`: role gate is `current_user.role_id != 4` (the seeded
LECTURER role id); the topic must exist; the approval check is
`if topic.status and topic.status.upper() != "APPROVED"`, so a falsy
(`None`/empty) status skips the check.  The new project gets
`status="active"`. -/
def create_project (db : DB) (current_user : User) (payload : ProjectCreate) :
    Except ApiError (DB × Project) :=
  if current_user.role_id != 4 then
    .error (.forbidden "Only lecturers can create projects")
  else
    match db.findTopic payload.topic_id with
    | none => .error (.notFound "Topic not found")
    | some topic =>
      if pyTruthy topic.status && pyUpper (topic.status.getD "") != "APPROVED" then
        .error (.badRequest "Can only create projects from approved topics")
      else
        let project : Project :=
          { project_id := db.next_project_id
            project_name := payload.project_name
            topic_id := payload.topic_id
            class_id := payload.class_id
            status := some "active" }
        .ok ({ db with
                projects := db.projects ++ [project]
                next_project_id := db.next_project_id + 1 },
             project)

-- ==========================================
-- `app/api/v1/endpoints/tasks.py`
-- ==========================================

/-- `verify_team_member`: is there an active `TeamMember` row for
`(team_id, user_id)`? -/
def verify_team_member (db : DB) (team_id : Nat) (user_id : String) : Bool :=
  db.team_members.any
    (fun m => m.team_id == team_id && m.student_id == user_id && m.is_active)

/-- Request body `SprintCreate` (note: it has no `status` field, so a
caller-supplied status is ignored by schema validation). -/
structure SprintCreate where
  title : Option String
  start_date : Option Nat
  end_date : Option Nat
  team_id : Nat
  deriving DecidableEq, Repr

/-- `create_sprint`: STUDENT-only; team must exist; caller must be an
active member; the new sprint always gets `status="planned"`. -/
def create_sprint (db : DB) (current_user : User) (sprint_in : SprintCreate) :
    Except ApiError (DB × Sprint) :=
  if pyUpper current_user.role_name != "STUDENT" then
    .error (.forbidden "Only students can create sprints")
  else
    match db.findTeam sprint_in.team_id with
    | none => .error (.notFound "Team not found")
    | some _ =>
      if !(verify_team_member db sprint_in.team_id current_user.user_id) then
        .error (.forbidden "You are not a member of this team")
      else
        let new_sprint : Sprint :=
          { sprint_id := db.next_sprint_id
            team_id := sprint_in.team_id
            title := sprint_in.title
            start_date := sprint_in.start_date
            end_date := sprint_in.end_date
            status := some "planned" }
        .ok ({ db with
                sprints := db.sprints ++ [new_sprint]
                next_sprint_id := db.next_sprint_id + 1 },
             new_sprint)

/-- Request body `TaskCreate`. -/
structure TaskCreate where
  title : Option String
  description : Option String
  priority : Option String
  sprint_id : Option Nat
  assignee_id : Option String
  due_date : Option Nat
  deriving DecidableEq, Repr

/-- `create_task`: STUDENT-only; `if task_in.sprint_id:` — a falsy sprint
id is rejected with 400 (backlog creation unsupported); the team id is
derived from the sprint; the caller, and the assignee when supplied, must
be active members of that team.  The new task gets `status="todo"` and
`priority = task_in.priority or "medium"`. -/
def create_task (db : DB) (current_user : User) (task_in : TaskCreate) :
    Except ApiError (DB × Task) :=
  if pyUpper current_user.role_name != "STUDENT" then
    .error (.forbidden "Only students can create tasks")
  else
    match
      (if pyTruthyNat task_in.sprint_id then
        match db.findSprint (task_in.sprint_id.getD 0) with
        | none => .error (.notFound "Sprint not found")
        | some sprint => .ok sprint.team_id
      else
        .error (.badRequest "sprint_id is required. Use team sprints or create a sprint first")
        : Except ApiError Nat) with
    | .error e => .error e
    | .ok team_id =>
      if !(verify_team_member db team_id current_user.user_id) then
        .error (.forbidden "You are not a member of this team")
      else if task_in.assignee_id.isSome
          && !(verify_team_member db team_id (task_in.assignee_id.getD "")) then
        .error (.badRequest "Assignee is not a member of this team")
      else
        let new_task : Task :=
          { task_id := db.next_task_id
            sprint_id := task_in.sprint_id
            title := task_in.title
            description := task_in.description
            assignee_id := task_in.assignee_id
            priority := if pyTruthy task_in.priority then task_in.priority
                        else some "medium"
            status := some "todo"
            due_date := task_in.due_date }
        .ok ({ db with
                tasks := db.tasks ++ [new_task]
                next_task_id := db.next_task_id + 1 },
             new_task)

/-- Request body `SprintUpdate`.  Each field is doubled:
`none` = absent from the request (excluded by `exclude_unset`),
`some v` = present with value `v` (which may itself be `null`). -/
structure SprintUpdate where
  title : Option (Option String)
  start_date : Option (Option Nat)
  end_date : Option (Option Nat)
  status : Option (Option String)
  deriving DecidableEq, Repr

/-- The Python attribute value of a doubled field: absent reads as `None`. -/
def fieldVal (f : Option (Option α)) : Option α :=
  f.getD none

/-- `setattr` for one field of a partial update: apply when present. -/
def applyField (f : Option (Option α)) (old : Option α) : Option α :=
  match f with
  | none => old
  | some v => v

/-- `update_sprint`: 404 when missing; STUDENT callers must be team
members; `if sprint_in.status and sprint_in.status not in [...]` — only a
truthy out-of-enum status is rejected; then the fields present in the
request are applied (`model_dump(exclude_unset=True)`). -/
def update_sprint (db : DB) (current_user : User) (sprint_id : Nat)
    (sprint_in : SprintUpdate) : Except ApiError (DB × Sprint) :=
  match db.findSprint sprint_id with
  | none => .error (.notFound "Sprint not found")
  | some sprint =>
    if pyUpper current_user.role_name == "STUDENT"
        && !(verify_team_member db sprint.team_id current_user.user_id) then
      .error (.forbidden "You are not a member of this team")
    else if pyTruthy (fieldVal sprint_in.status)
        && !(["planned", "active", "completed"].contains
              ((fieldVal sprint_in.status).getD "")) then
      .error (.badRequest "Invalid status. Must be: planned, active, completed")
    else
      let sprint' : Sprint :=
        { sprint with
            title := applyField sprint_in.title sprint.title
            start_date := applyField sprint_in.start_date sprint.start_date
            end_date := applyField sprint_in.end_date sprint.end_date
            status := applyField sprint_in.status sprint.status }
      .ok ({ db with
              sprints := db.sprints.map
                (fun s => if s.sprint_id == sprint_id then sprint' else s) },
           sprint')

/-- Request body `TaskUpdate`, doubled fields as in `SprintUpdate`. -/
structure TaskUpdate where
  title : Option (Option String)
  description : Option (Option String)
  assignee_id : Option (Option String)
  priority : Option (Option String)
  status : Option (Option String)
  sprint_id : Option (Option Nat)
  due_date : Option (Option Nat)
  deriving DecidableEq, Repr

/-- `update_task` (full PATCH): 404 when missing; the membership gate runs
only `if task.sprint`; truthy out-of-enum status or priority is rejected;
a supplied assignee is re-validated against the current sprint's team;
then the present fields are applied. -/
def update_task (db : DB) (current_user : User) (task_id : Nat)
    (task_in : TaskUpdate) : Except ApiError (DB × Task) :=
  match db.findTask task_id with
  | none => .error (.notFound "Task not found")
  | some task =>
    if (db.taskSprint task).isSome
        && pyUpper current_user.role_name == "STUDENT"
        && !(verify_team_member db ((db.taskSprint task).map Sprint.team_id |>.getD 0)
              current_user.user_id) then
      .error (.forbidden "You are not a member of this team")
    else if pyTruthy (fieldVal task_in.status)
        && !(["todo", "doing", "done"].contains ((fieldVal task_in.status).getD "")) then
      .error (.badRequest "Invalid status. Must be: todo, doing, done")
    else if pyTruthy (fieldVal task_in.priority)
        && !(["low", "medium", "high"].contains ((fieldVal task_in.priority).getD "")) then
      .error (.badRequest "Invalid priority. Must be: low, medium, high")
    else if (fieldVal task_in.assignee_id).isSome && (db.taskSprint task).isSome
        && !(verify_team_member db ((db.taskSprint task).map Sprint.team_id |>.getD 0)
              ((fieldVal task_in.assignee_id).getD "")) then
      .error (.badRequest "Assignee is not a member of this team")
    else
      let task' : Task :=
        { task with
            title := applyField task_in.title task.title
            description := applyField task_in.description task.description
            assignee_id := applyField task_in.assignee_id task.assignee_id
            priority := applyField task_in.priority task.priority
            status := applyField task_in.status task.status
            sprint_id := applyField task_in.sprint_id task.sprint_id
            due_date := applyField task_in.due_date task.due_date }
      .ok ({ db with
              tasks := db.tasks.map
                (fun t => if t.task_id == task_id then task' else t) },
           task')

/-- `update_task_status` (fast path for drag-and-drop): same 404 and
membership gate as `update_task`, but the status check is unconditional:
`if status_update.status not in ["todo", "doing", "done"]`. -/
def update_task_status (db : DB) (current_user : User) (task_id : Nat)
    (status_value : String) : Except ApiError (DB × Task) :=
  match db.findTask task_id with
  | none => .error (.notFound "Task not found")
  | some task =>
    if (db.taskSprint task).isSome
        && pyUpper current_user.role_name == "STUDENT"
        && !(verify_team_member db ((db.taskSprint task).map Sprint.team_id |>.getD 0)
              current_user.user_id) then
      .error (.forbidden "You are not a member of this team")
    else if !(["todo", "doing", "done"].contains status_value) then
      .error (.badRequest "Invalid status. Must be: todo, doing, done")
    else
      let task' : Task := { task with status := some status_value }
      .ok ({ db with
              tasks := db.tasks.map
                (fun t => if t.task_id == task_id then task' else t) },
           task')

/-- `delete_task`: 404 when missing; the membership gate runs only
`if task.sprint`; then the row is deleted. -/
def delete_task (db : DB) (current_user : User) (task_id : Nat) :
    Except ApiError DB :=
  match db.findTask task_id with
  | none => .error (.notFound "Task not found")
  | some task =>
    if (db.taskSprint task).isSome
        && pyUpper current_user.role_name == "STUDENT"
        && !(verify_team_member db ((db.taskSprint task).map Sprint.team_id |>.getD 0)
              current_user.user_id) then
      .error (.forbidden "You are not a member of this team")
    else
      .ok { db with tasks := db.tasks.filter (fun t => t.task_id != task_id) }

/-- Response body `TaskStatistics`.  `completion_rate` is kept as an exact
rational. -/
structure TaskStatistics where
  total_tasks : Nat
  todo_count : Nat
  doing_count : Nat
  done_count : Nat
  completion_rate : ℚ
  deriving DecidableEq, Repr

/-- `get_sprint_statistics`: 404 when the sprint is missing; STUDENT
callers must be team members; the aggregation query then evaluates
`func.cast(Task.status == "todo", Integer)` — but `Integer` is never
imported in `tasks.py`, so every call that reaches the query raises
`NameError` (an unhandled exception, surfacing as HTTP 500). -/
def get_sprint_statistics (db : DB) (current_user : User) (sprint_id : Nat) :
    Except ApiError TaskStatistics :=
  match db.findSprint sprint_id with
  | none => .error (.notFound "Sprint not found")
  | some sprint =>
    if pyUpper current_user.role_name == "STUDENT"
        && !(verify_team_member db sprint.team_id current_user.user_id) then
      .error (.forbidden "You are not a member of this team")
    else
      .error (.internalError "NameError: name Integer is not defined")

/-- Rounding to 2 decimal places, as in the spec's
"done/total×100 rounded to 2 decimals". -/
def round2 (q : ℚ) : ℚ :=
  (round (q * 100) : ℤ) / 100

/-- The tasks of one sprint (`WHERE Task.sprint_id == sprint_id`). -/
def sprintTasks (db : DB) (sprint_id : Nat) : List Task :=
  db.tasks.filter (fun t => t.sprint_id == some sprint_id)

/-- How many of the given tasks carry the given status. -/
def countWithStatus (l : List Task) (st : String) : Nat :=
  (l.filter (fun t => t.status == some st)).length

/-- Modelled from the spec: `completion_rate = done/total×100` rounded to
2 decimals, defined as `0.0` when total is 0. -/
def spec_completion_rate (done total : Nat) : ℚ :=
  if total > 0 then round2 ((done : ℚ) / (total : ℚ) * 100) else 0

/-- Modelled from the spec: the statistics aggregation that
`get_sprint_statistics` was meant to compute (its aggregation query is
dead code because of the unbound `Integer` name) — per-status counts of
the sprint's tasks and the completion rate over them. -/
def spec_sprint_statistics (db : DB) (sprint_id : Nat) : TaskStatistics :=
  { total_tasks := (sprintTasks db sprint_id).length
    todo_count := countWithStatus (sprintTasks db sprint_id) "todo"
    doing_count := countWithStatus (sprintTasks db sprint_id) "doing"
    done_count := countWithStatus (sprintTasks db sprint_id) "done"
    completion_rate :=
      spec_completion_rate (countWithStatus (sprintTasks db sprint_id) "done")
        (sprintTasks db sprint_id).length }

-- ==========================================
-- Result projections and concrete sample data
-- ==========================================

/-- Decidable equality of handler results, for concrete evaluation. -/
instance {ε α : Type} [DecidableEq ε] [DecidableEq α] :
    DecidableEq (Except ε α) := fun a b =>
  match a, b with
  | .ok x, .ok y => decidable_of_iff (x = y) (by simp)
  | .error e, .error f => decidable_of_iff (e = f) (by simp)
  | .ok _, .error _ => isFalse (by simp)
  | .error _, .ok _ => isFalse (by simp)

/-- Did the handler succeed (HTTP 2xx)? -/
def isOkB : Except ApiError α → Bool
  | .ok _ => true
  | .error _ => false

/-- Did the handler fail with a 403 `Forbidden`? -/
def isForbiddenR : Except ApiError α → Bool
  | .error e => e.isForbidden
  | .ok _ => false

/-- A `TaskUpdate` request carrying only a `status` field (the shape the
fast-path endpoint is meant to be equivalent to). -/
def onlyStatus (s : String) : TaskUpdate :=
  { title := none, description := none, assignee_id := none,
    priority := none, status := some (some s), sprint_id := none,
    due_date := none }

/-- A lecturer principal (seeded role id 4). -/
def lectUser : User :=
  { user_id := "u-lect", role_id := 4, role_name := "LECTURER", is_active := true }

/-- An active student who is a member of team 7. -/
def aliceUser : User :=
  { user_id := "u-alice", role_id := 5, role_name := "STUDENT", is_active := true }

/-- An active student who is a member of no team. -/
def bobUser : User :=
  { user_id := "u-bob", role_id := 5, role_name := "STUDENT", is_active := true }

/-- A deactivated student account. -/
def danaUser : User :=
  { user_id := "u-dana", role_id := 5, role_name := "STUDENT", is_active := false }

/-- A sprint of team 7. -/
def sprint10 : Sprint :=
  { sprint_id := 10, team_id := 7, title := some "Sprint 1",
    start_date := some 1, end_date := some 14, status := some "planned" }

/-- A task inside sprint 10. -/
def task100 : Task :=
  { task_id := 100, sprint_id := some 10, title := some "Implement login",
    description := none, assignee_id := some "u-alice",
    priority := some "medium", status := some "todo", due_date := none }

/-- A backlog task (no sprint). -/
def task200 : Task :=
  { task_id := 200, sprint_id := none, title := some "Stray note",
    description := none, assignee_id := none,
    priority := some "low", status := some "todo", due_date := none }

/-- A small concrete store exercising every edge the claims mention:
topic 1 has the falsy status `""`, topic 2 is approved, topic 3 pending;
alice is an active member of team 7, bob is in no team. -/
def sampleDb : DB :=
  { users := [lectUser, aliceUser, bobUser, danaUser]
    topics := [{ topic_id := 1, status := some "" },
               { topic_id := 2, status := some "approved" },
               { topic_id := 3, status := some "pending" }]
    projects := []
    teams := [{ team_id := 7, leader_id := "u-alice" }]
    team_members := [{ team_id := 7, student_id := "u-alice", is_active := true }]
    sprints := [sprint10]
    tasks := [task100, task200]
    next_project_id := 1
    next_sprint_id := 11
    next_task_id := 201 }

/-- One task row of the statistics scenario (all in sprint 10). -/
def statTask (i : Nat) (st : String) : Task :=
  { task_id := i, sprint_id := some 10, title := none, description := none,
    assignee_id := none, priority := some "medium", status := some st,
    due_date := none }

/-- The spec's statistics scenario: sprint 10 holds 10 tasks, 3 done. -/
def statsDb : DB :=
  { sampleDb with
      tasks := [statTask 1 "done", statTask 2 "done", statTask 3 "done",
                statTask 4 "todo", statTask 5 "todo", statTask 6 "todo",
                statTask 7 "todo", statTask 8 "doing", statTask 9 "doing",
                statTask 10 "todo"] }

/-- C1 counterexample: a LECTURER calls `create_project` on topic 1, whose
status is the empty string — not "approved" under any case folding — and
the call succeeds (201) instead of failing with `InvalidState` (400),
because `if topic.status and ...` skips the approval check for a falsy
status. -/
theorem C1_counterexample :
    isOkB (create_project sampleDb lectUser
      { project_name := some "Proj", topic_id := 1, class_id := 1 }) = true ∧
    sampleDb.findTopic 1 = some { topic_id := 1, status := some "" } ∧
    (pyUpper "" == "APPROVED") = false ∧
    pyUpper lectUser.role_name = "LECTURER" := by
  decide

/-- C1 (amended): project creation fails with Forbidden unless the caller
has the seeded LECTURER role id 4, with NotFound when the topic is
missing, and with InvalidState (400) when the topic's status is a
non-empty string that is not "approved" case-insensitively; when the
status is approved — or falsy (`None`/empty), which slips past the
`if topic.status and ...` guard — the project is created with status
"active". -/
theorem C1_create_project_rules (db : DB) (u : User) (p : ProjectCreate) :
    (u.role_id ≠ 4 →
      create_project db u p = .error (.forbidden "Only lecturers can create projects")) ∧
    (u.role_id = 4 → db.findTopic p.topic_id = none →
      create_project db u p = .error (.notFound "Topic not found")) ∧
    (∀ t s, u.role_id = 4 → db.findTopic p.topic_id = some t →
      t.status = some s → s ≠ "" → pyUpper s ≠ "APPROVED" →
      create_project db u p =
        .error (.badRequest "Can only create projects from approved topics")) ∧
    (∀ t, u.role_id = 4 → db.findTopic p.topic_id = some t →
      (pyTruthy t.status = false ∨ pyUpper (t.status.getD "") = "APPROVED") →
      create_project db u p =
        .ok ({ db with
                projects := db.projects ++
                  [{ project_id := db.next_project_id,
                     project_name := p.project_name,
                     topic_id := p.topic_id,
                     class_id := p.class_id,
                     status := some "active" }],
                next_project_id := db.next_project_id + 1 },
             { project_id := db.next_project_id,
               project_name := p.project_name,
               topic_id := p.topic_id,
               class_id := p.class_id,
               status := some "active" })) := by
  refine ⟨?_, ?_, ?_, ?_⟩
  · intro hr
    simp [create_project, hr]
  · intro hr hf
    simp [create_project, hr, hf]
  · intro t s hr hf hs hne hup
    simp [create_project, hr, hf, hs, pyTruthy, hne, hup]
  · intro t hr hf hok
    rcases hok with hfalse | happ
    · simp [create_project, hr, hf, hfalse]
    · simp [create_project, hr, hf, happ]

/-- C1 witness: a STUDENT caller is rejected with Forbidden, and a
"pending" topic is rejected with InvalidState, instantiating the amended
rules on the sample store. -/
theorem C1_rules_witness :
    create_project sampleDb aliceUser
      { project_name := some "Proj", topic_id := 2, class_id := 1 } =
      .error (.forbidden "Only lecturers can create projects") ∧
    create_project sampleDb lectUser
      { project_name := some "Proj", topic_id := 3, class_id := 1 } =
      .error (.badRequest "Can only create projects from approved topics") := by
  constructor
  · exact (C1_create_project_rules sampleDb aliceUser
      { project_name := some "Proj", topic_id := 2, class_id := 1 }).1 (by decide)
  · exact (C1_create_project_rules sampleDb lectUser
      { project_name := some "Proj", topic_id := 3, class_id := 1 }).2.2.1
      { topic_id := 3, status := some "pending" } "pending"
      rfl (by decide) rfl (by decide) (by decide)

end CNPM
namespace CNPM

/-- C2: authentication distinguishes two failure kinds: 401 exactly for
malformed/signature-invalid/expired tokens, a missing subject claim, or an
unknown subject; 403 exactly for an existing user row whose active flag is
false. -/
theorem C2_auth_failure_kinds (db : DB) (tok : TokenDecode) :
    ((∃ d, get_current_user db tok = .error (.unauthenticated d)) ↔
      tok = .malformed ∨ tok = .badSignature ∨ tok = .expired ∨
      tok = .payload none ∨
      (∃ uid, tok = .payload (some uid) ∧ db.findUser uid = none)) ∧
    ((∃ d, get_current_user db tok = .error (.forbidden d)) ↔
      (∃ uid u, tok = .payload (some uid) ∧ db.findUser uid = some u ∧
        u.is_active = false)) := by
  cases tok with
  | malformed => simp [get_current_user]
  | badSignature => simp [get_current_user]
  | expired => simp [get_current_user]
  | payload sub =>
    cases sub with
    | none => simp [get_current_user]
    | some uid =>
      cases h : db.findUser uid with
      | none => simp [get_current_user, h]
      | some u =>
        cases hA : u.is_active <;> simp [get_current_user, h, hA]

/-- C10: the role gate accepts a principal exactly when the principal's
role name, upper-case normalized on both sides, matches a member of the
allowed list; otherwise it rejects with Forbidden. -/
theorem C10_role_gate (allowed_roles : List String) (u : User) :
    (require_role allowed_roles u = .ok u ↔
      ∃ r ∈ allowed_roles, pyUpper r = pyUpper u.role_name) ∧
    (require_role allowed_roles u = .error (.forbidden "Access denied") ↔
      ¬ ∃ r ∈ allowed_roles, pyUpper r = pyUpper u.role_name) := by
  have hiff : ((allowed_roles.map pyUpper).contains (pyUpper u.role_name) = true) ↔
      ∃ r ∈ allowed_roles, pyUpper r = pyUpper u.role_name := by
    simp [List.contains_iff_exists_mem_beq, List.mem_map, eq_comm]
  by_cases hc : ((allowed_roles.map pyUpper).contains (pyUpper u.role_name) = true)
  · simp [require_role, hc, hiff.mp hc]
  · simp [require_role, hc, hiff.not.mp hc]

/-- C3: sprint creation is accepted exactly for a STUDENT caller with an
existing team and an active membership, failing Forbidden on role or
membership and NotFound on a missing team; every created sprint has
status "planned" (the request schema has no status field). -/
theorem C3_create_sprint_rules (db : DB) (u : User) (s_in : SprintCreate) :
    ((∃ r, create_sprint db u s_in = .ok r) ↔
      (pyUpper u.role_name = "STUDENT" ∧ (db.findTeam s_in.team_id).isSome = true ∧
       verify_team_member db s_in.team_id u.user_id = true)) ∧
    (pyUpper u.role_name ≠ "STUDENT" →
      create_sprint db u s_in = .error (.forbidden "Only students can create sprints")) ∧
    (pyUpper u.role_name = "STUDENT" → db.findTeam s_in.team_id = none →
      create_sprint db u s_in = .error (.notFound "Team not found")) ∧
    (pyUpper u.role_name = "STUDENT" → (db.findTeam s_in.team_id).isSome = true →
      verify_team_member db s_in.team_id u.user_id = false →
      create_sprint db u s_in = .error (.forbidden "You are not a member of this team")) ∧
    (∀ db' sp, create_sprint db u s_in = .ok (db', sp) → sp.status = some "planned") := by
  by_cases hrole : pyUpper u.role_name = "STUDENT"
  · cases hteam : db.findTeam s_in.team_id with
    | none => simp [create_sprint, hrole, hteam]
    | some tm =>
      cases hmem : verify_team_member db s_in.team_id u.user_id with
      | false => simp [create_sprint, hrole, hteam, hmem]
      | true =>
        simp [create_sprint, hrole, hteam, hmem]
  · simp [create_sprint, bne_iff_ne, hrole]

/-- C3 witness: a lecturer is rejected, and alice (an active member of
team 7) succeeds. -/
theorem C3_rules_witness :
    create_sprint sampleDb lectUser
      { title := some "S", start_date := none, end_date := none, team_id := 7 } =
      .error (.forbidden "Only students can create sprints") ∧
    isOkB (create_sprint sampleDb aliceUser
      { title := some "S", start_date := none, end_date := none, team_id := 7 }) = true := by
  constructor
  · exact (C3_create_sprint_rules sampleDb lectUser
      { title := some "S", start_date := none, end_date := none, team_id := 7 }).2.1
      (by decide)
  · obtain ⟨r, hr⟩ := (C3_create_sprint_rules sampleDb aliceUser
      { title := some "S", start_date := none, end_date := none, team_id := 7 }).1.mpr
      ⟨by decide, by decide, by decide⟩
    rw [hr]
    rfl

/-- C4 counterexample: a LECTURER submitting a task without a sprint id is
rejected by the earlier role gate with Forbidden (403), not with the
claimed validation failure (400). -/
theorem C4_counterexample :
    create_task sampleDb lectUser
      { title := some "T", description := none, priority := none,
        sprint_id := none, assignee_id := none, due_date := none } =
      .error (.forbidden "Only students can create tasks") ∧
    (ApiError.forbidden "Only students can create tasks").statusCode = 403 := by
  decide

/-- C4 (amended): for STUDENT callers, task creation rejects a request
without a (truthy) sprint id with 400, 404s on a dangling sprint id,
derives the team from the sprint, rejects a non-member assignee with
InvalidAssignee (400) when the caller is a member, and on success the
supplied assignee (if any) is an active member of the derived team.
Non-STUDENT callers are rejected earlier with Forbidden (403). -/
theorem C4_create_task_rules (db : DB) (u : User) (t_in : TaskCreate)
    (hrole : pyUpper u.role_name = "STUDENT") :
    (pyTruthyNat t_in.sprint_id = false →
      create_task db u t_in =
        .error (.badRequest "sprint_id is required. Use team sprints or create a sprint first")) ∧
    (∀ sid, t_in.sprint_id = some sid → sid ≠ 0 → db.findSprint sid = none →
      create_task db u t_in = .error (.notFound "Sprint not found")) ∧
    (∀ sid sprint a, t_in.sprint_id = some sid → sid ≠ 0 →
      db.findSprint sid = some sprint →
      verify_team_member db sprint.team_id u.user_id = true →
      t_in.assignee_id = some a →
      verify_team_member db sprint.team_id a = false →
      create_task db u t_in =
        .error (.badRequest "Assignee is not a member of this team")) ∧
    (∀ db' tk, create_task db u t_in = .ok (db', tk) →
      ∃ sid sprint, t_in.sprint_id = some sid ∧ db.findSprint sid = some sprint ∧
        tk.sprint_id = some sid ∧
        verify_team_member db sprint.team_id u.user_id = true ∧
        (∀ a, t_in.assignee_id = some a →
          verify_team_member db sprint.team_id a = true)) := by
  refine ⟨?_, ?_, ?_, ?_⟩
  · intro hfalsy
    simp [create_task, hrole, hfalsy]
  · intro sid hsid hne hfs
    simp [create_task, hrole, hsid, pyTruthyNat, hne, hfs]
  · intro sid sprint a hsid hne hfs hmem ha hamem
    simp [create_task, hrole, hsid, pyTruthyNat, hne, hfs, hmem, ha, hamem]
  · intro db' tk hok
    by_cases htr : pyTruthyNat t_in.sprint_id = true
    · cases hsid : t_in.sprint_id with
      | none => simp [pyTruthyNat, hsid] at htr
      | some sid =>
        have hne : (sid != 0) = true := by rw [hsid] at htr; exact htr
        cases hfs : db.findSprint sid with
        | none => simp [create_task, hrole, hsid, pyTruthyNat, hne, hfs] at hok
        | some sprint =>
          cases hmem : verify_team_member db sprint.team_id u.user_id with
          | false =>
            simp [create_task, hrole, hsid, pyTruthyNat, hne, hfs, hmem] at hok
          | true =>
            cases ha : t_in.assignee_id with
            | some a =>
              cases hamem : verify_team_member db sprint.team_id a with
              | false =>
                simp [create_task, hrole, hsid, pyTruthyNat, hne, hfs, hmem,
                  ha, hamem] at hok
              | true =>
                refine ⟨sid, sprint, rfl, hfs, ?_, hmem, ?_⟩
                · simp [create_task, hrole, hsid, pyTruthyNat, hne, hfs, hmem,
                    ha, hamem] at hok
                  simp [← hok.2, hsid]
                · intro a' ha'
                  cases ha'
                  exact hamem
            | none =>
              refine ⟨sid, sprint, rfl, hfs, ?_, hmem, ?_⟩
              · simp [create_task, hrole, hsid, pyTruthyNat, hne, hfs, hmem,
                  ha] at hok
                simp [← hok.2, hsid]
              · intro a' ha'
                exact Option.noConfusion ha'
    · have hfalsy : pyTruthyNat t_in.sprint_id = false := by
        simpa using htr
      simp [create_task, hrole, hfalsy] at hok

/-- C4 witness: a student with no sprint id gets 400, and alice naming a
non-member assignee (bob) gets InvalidAssignee on the sample store. -/
theorem C4_rules_witness :
    create_task sampleDb bobUser
      { title := some "T", description := none, priority := none,
        sprint_id := none, assignee_id := none, due_date := none } =
      .error (.badRequest "sprint_id is required. Use team sprints or create a sprint first") ∧
    create_task sampleDb aliceUser
      { title := some "T", description := none, priority := none,
        sprint_id := some 10, assignee_id := some "u-bob", due_date := none } =
      .error (.badRequest "Assignee is not a member of this team") := by
  constructor
  · exact (C4_create_task_rules sampleDb bobUser
      { title := some "T", description := none, priority := none,
        sprint_id := none, assignee_id := none, due_date := none }
      (by decide)).1 (by decide)
  · exact (C4_create_task_rules sampleDb aliceUser
      { title := some "T", description := none, priority := none,
        sprint_id := some 10, assignee_id := some "u-bob", due_date := none }
      (by decide)).2.2.1 10 sprint10 "u-bob" rfl (by decide) (by decide)
      (by decide) rfl (by decide)

/-- C5 counterexample: alice supplies the status value `""` — outside
{planned, active, completed} — on sprint 10, and `update_sprint` accepts
it and stores it (the stored sprint changes from "planned" to ""),
because `if sprint_in.status and ...` skips validation for a falsy
status. -/
theorem C5_counterexample :
    update_sprint sampleDb aliceUser 10
      { title := none, start_date := none, end_date := none,
        status := some (some "") } =
      .ok ({ sampleDb with sprints := [{ sprint10 with status := some "" }] },
           { sprint10 with status := some "" }) ∧
    (["planned", "active", "completed"].contains "") = false := by
  decide

/-- C5 (amended): for requests that reach the validation step (entity
found, membership gate passed), a supplied non-empty out-of-enum status
is rejected with InvalidState (400) on sprint update, and any out-of-enum
status — empty included — is rejected on the fast-path task status
update; every in-enum value is accepted regardless of the current stored
status (no transition ordering).  A supplied empty-string status on
sprint update bypasses validation and is stored. -/
theorem C5_status_enum_rules :
    (∀ db u sid s_in sprint s, db.findSprint sid = some sprint →
      (pyUpper u.role_name = "STUDENT" →
        verify_team_member db sprint.team_id u.user_id = true) →
      fieldVal s_in.status = some s →
      ((s ≠ "" ∧ (["planned", "active", "completed"].contains s) = false →
        update_sprint db u sid s_in =
          .error (.badRequest "Invalid status. Must be: planned, active, completed")) ∧
      ((["planned", "active", "completed"].contains s) = true →
        isOkB (update_sprint db u sid s_in) = true))) ∧
    (∀ db u tid task s, db.findTask tid = some task →
      ((db.taskSprint task).isSome = true → pyUpper u.role_name = "STUDENT" →
        verify_team_member db ((db.taskSprint task).map Sprint.team_id |>.getD 0)
          u.user_id = true) →
      (((["todo", "doing", "done"].contains s) = false →
        update_task_status db u tid s =
          .error (.badRequest "Invalid status. Must be: todo, doing, done")) ∧
      ((["todo", "doing", "done"].contains s) = true →
        isOkB (update_task_status db u tid s) = true))) := by
  constructor
  · intro db u sid s_in sprint s hfs hgate hval
    have hgateB : (pyUpper u.role_name == "STUDENT"
        && !(verify_team_member db sprint.team_id u.user_id)) = false := by
      by_cases hr : pyUpper u.role_name = "STUDENT"
      · simp [hr, hgate hr]
      · simp [hr]
    constructor
    · rintro ⟨hne, hout⟩
      have hout' : ¬s = "planned" ∧ ¬s = "active" ∧ ¬s = "completed" := by
        simpa using hout
      simp [update_sprint, hfs, hgateB, hval, pyTruthy, hne,
        hout'.1, hout'.2.1, hout'.2.2]
    · intro hin
      have hin' : s = "planned" ∨ s = "active" ∨ s = "completed" := by
        simpa using hin
      rcases hin' with h | h | h <;>
        simp [update_sprint, hfs, hgateB, hval, h, isOkB]
  · intro db u tid task s hft hgate
    have hgateB : ((db.taskSprint task).isSome
        && (pyUpper u.role_name == "STUDENT")
        && !(verify_team_member db ((db.taskSprint task).map Sprint.team_id |>.getD 0)
              u.user_id)) = false := by
      by_cases hsp : (db.taskSprint task).isSome = true
      · by_cases hr : pyUpper u.role_name = "STUDENT"
        · simp [hsp, hr, hgate hsp hr]
        · simp [hsp, hr]
      · have hsp' : (db.taskSprint task).isSome = false := by simpa using hsp
        simp [hsp']
    constructor
    · intro hout
      have hout' : ¬s = "todo" ∧ ¬s = "doing" ∧ ¬s = "done" := by
        simpa using hout
      simp [update_task_status, hft, hgateB, hout'.1, hout'.2.1, hout'.2.2]
    · intro hin
      have hin' : s = "todo" ∨ s = "doing" ∨ s = "done" := by
        simpa using hin
      rcases hin' with h | h | h <;>
        simp [update_task_status, hft, hgateB, h, isOkB]

/-- C5 witness: "archived" is rejected on both paths, "completed" and
"done" are accepted, on the sample store. -/
theorem C5_rules_witness :
    update_sprint sampleDb aliceUser 10
      { title := none, start_date := none, end_date := none,
        status := some (some "archived") } =
      .error (.badRequest "Invalid status. Must be: planned, active, completed") ∧
    isOkB (update_sprint sampleDb aliceUser 10
      { title := none, start_date := none, end_date := none,
        status := some (some "completed") }) = true ∧
    update_task_status sampleDb aliceUser 100 "archived" =
      .error (.badRequest "Invalid status. Must be: todo, doing, done") ∧
    isOkB (update_task_status sampleDb aliceUser 100 "done") = true := by
  refine ⟨?_, ?_, ?_, ?_⟩
  · exact ((C5_status_enum_rules.1 sampleDb aliceUser 10
      { title := none, start_date := none, end_date := none,
        status := some (some "archived") } sprint10 "archived"
      (by decide) (fun _ => by decide) rfl).1 ⟨by decide, by decide⟩)
  · exact ((C5_status_enum_rules.1 sampleDb aliceUser 10
      { title := none, start_date := none, end_date := none,
        status := some (some "completed") } sprint10 "completed"
      (by decide) (fun _ => by decide) rfl).2 (by decide))
  · exact ((C5_status_enum_rules.2 sampleDb aliceUser 100 task100 "archived"
      (by decide) (fun _ _ => by decide)).1 (by decide))
  · exact ((C5_status_enum_rules.2 sampleDb aliceUser 100 task100 "done"
      (by decide) (fun _ _ => by decide)).2 (by decide))

/-- C6 counterexample: on task 100 the full update carrying only the
status `""` succeeds and stores `""`, while the fast-path rejects the
same value with 400 — the two endpoints are not equivalent on every
status input. -/
theorem C6_counterexample :
    isOkB (update_task sampleDb aliceUser 100 (onlyStatus "")) = true ∧
    update_task_status sampleDb aliceUser 100 "" =
      .error (.badRequest "Invalid status. Must be: todo, doing, done") := by
  decide

/-- C6 (amended): for every non-empty status value the fast-path status
update and the full update restricted to a lone status field agree
exactly (same validation, same membership gate, same resulting state and
response); they differ only on the empty string, which the full update's
`if task_in.status and ...` guard lets through. -/
theorem C6_fastpath_equiv (db : DB) (u : User) (tid : Nat) (s : String)
    (hs : s ≠ "") :
    update_task db u tid (onlyStatus s) = update_task_status db u tid s := by
  cases hft : db.findTask tid with
  | none => simp [update_task, update_task_status, hft]
  | some task =>
    by_cases hgate : ((db.taskSprint task).isSome
        && (pyUpper u.role_name == "STUDENT")
        && !(verify_team_member db ((db.taskSprint task).map Sprint.team_id |>.getD 0)
              u.user_id)) = true
    · simp [update_task, update_task_status, hft, hgate]
    · have hgate' : ((db.taskSprint task).isSome
          && (pyUpper u.role_name == "STUDENT")
          && !(verify_team_member db ((db.taskSprint task).map Sprint.team_id |>.getD 0)
                u.user_id)) = false := by simpa using hgate
      by_cases hin : (["todo", "doing", "done"].contains s) = true
      · have hin' : s = "todo" ∨ s = "doing" ∨ s = "done" := by simpa using hin
        rcases hin' with h | h | h <;>
          simp [update_task, update_task_status, onlyStatus, fieldVal, applyField,
            hft, hgate', h, pyTruthy]
      · have hout : ¬s = "todo" ∧ ¬s = "doing" ∧ ¬s = "done" := by simpa using hin
        simp [update_task, update_task_status, onlyStatus, fieldVal, applyField,
          hft, hgate', pyTruthy, hs, hout.1, hout.2.1, hout.2.2]

/-- C6 witness: the two endpoints agree on status "doing" for task 100. -/
theorem C6_equiv_witness :
    update_task sampleDb aliceUser 100 (onlyStatus "doing") =
      update_task_status sampleDb aliceUser 100 "doing" :=
  C6_fastpath_equiv sampleDb aliceUser 100 "doing" (by decide)

/-- C7: on a backlog task (null sprint id) the update, fast-path status
update and delete handlers skip the membership gate entirely: their
outcome is the same for every caller (no role check), they never return
Forbidden, and deletion always succeeds. -/
theorem C7_backlog_no_gate (db : DB) (tid : Nat) (task : Task)
    (hfind : db.findTask tid = some task) (hback : task.sprint_id = none) :
    (∀ u u' t_in, update_task db u tid t_in = update_task db u' tid t_in) ∧
    (∀ u t_in, isForbiddenR (update_task db u tid t_in) = false) ∧
    (∀ u u' s, update_task_status db u tid s = update_task_status db u' tid s) ∧
    (∀ u s, isForbiddenR (update_task_status db u tid s) = false) ∧
    (∀ u, delete_task db u tid =
      .ok { db with tasks := db.tasks.filter (fun t => t.task_id != tid) }) := by
  have hsp : db.taskSprint task = none := by simp [DB.taskSprint, hback]
  refine ⟨?_, ?_, ?_, ?_, ?_⟩
  · intro u u' t_in
    simp [update_task, hfind, hsp]
  · intro u t_in
    simp only [update_task, hfind, hsp]
    split_ifs <;> simp_all [isForbiddenR, ApiError.isForbidden]
  · intro u u' s
    simp [update_task_status, hfind, hsp]
  · intro u s
    simp only [update_task_status, hfind, hsp]
    split_ifs <;> simp_all [isForbiddenR, ApiError.isForbidden]
  · intro u
    simp [delete_task, hfind, hsp]

/-- C7 witness: bob, a student in no team, updates and deletes backlog
task 200 without ever seeing Forbidden, and gets the same results a
lecturer would. -/
theorem C7_backlog_witness :
    isForbiddenR (update_task sampleDb bobUser 200 (onlyStatus "done")) = false ∧
    update_task sampleDb bobUser 200 (onlyStatus "done") =
      update_task sampleDb lectUser 200 (onlyStatus "done") ∧
    isForbiddenR (update_task_status sampleDb bobUser 200 "done") = false ∧
    delete_task sampleDb bobUser 200 =
      .ok { sampleDb with
              tasks := sampleDb.tasks.filter (fun t => t.task_id != 200) } := by
  have h := C7_backlog_no_gate sampleDb 200 task200 (by decide) (by decide)
  exact ⟨h.2.1 bobUser (onlyStatus "done"),
         h.1 bobUser lectUser (onlyStatus "done"),
         h.2.2.2.1 bobUser "done",
         h.2.2.2.2 bobUser⟩

/-- C8: sprint update is a partial update: each of the four request
fields overwrites the stored sprint exactly when present in the request
(`exclude_unset`), an absent field keeps the stored value, and the
sprint's identity and team are untouched. -/
theorem C8_sprint_partial_update (db : DB) (u : User) (sid : Nat)
    (s_in : SprintUpdate) (sp0 : Sprint) (db' : DB) (sp : Sprint)
    (h0 : db.findSprint sid = some sp0)
    (h : update_sprint db u sid s_in = .ok (db', sp)) :
    sp.title = s_in.title.getD sp0.title ∧
    sp.start_date = s_in.start_date.getD sp0.start_date ∧
    sp.end_date = s_in.end_date.getD sp0.end_date ∧
    sp.status = s_in.status.getD sp0.status ∧
    sp.sprint_id = sp0.sprint_id ∧
    sp.team_id = sp0.team_id ∧
    db'.tasks = db.tasks := by
  simp only [update_sprint, h0] at h
  split at h
  · exact absurd h (by simp)
  · split at h
    · exact absurd h (by simp)
    · simp only [Except.ok.injEq, Prod.mk.injEq] at h
      obtain ⟨hdb, hsp⟩ := h
      subst hdb hsp
      refine ⟨?_, ?_, ?_, ?_, rfl, rfl, rfl⟩ <;>
        first
        | (cases s_in.title <;> rfl)
        | (cases s_in.start_date <;> rfl)
        | (cases s_in.end_date <;> rfl)
        | (cases s_in.status <;> rfl)

/-- C8 witness: renaming sprint 10 while leaving the other fields unset
keeps its dates, status, id and team unchanged. -/
theorem C8_partial_witness :
    ({ sprint10 with title := some "Renamed" } : Sprint).title = some "Renamed" ∧
    ({ sprint10 with title := some "Renamed" } : Sprint).status = some "planned" := by
  have h := C8_sprint_partial_update sampleDb aliceUser 10
    { title := some (some "Renamed"), start_date := none, end_date := none,
      status := none }
    sprint10
    { sampleDb with sprints := [{ sprint10 with title := some "Renamed" }] }
    { sprint10 with title := some "Renamed" }
    (by decide) (by decide)
  exact ⟨h.1, h.2.2.2.1⟩

/-- C9: the statistics endpoint can never return the counts the claim
describes: its aggregation query names the unimported `Integer`, so every
call that passes the gates raises `NameError` (HTTP 500).  The spec-side
computation on the same store shows what the claim expected: 10 tasks,
3 done, completion rate 30; and 0 for an empty sprint. -/
theorem C9_statistics_code_bug :
    get_sprint_statistics statsDb aliceUser 10 =
      .error (.internalError "NameError: name Integer is not defined") ∧
    (spec_sprint_statistics statsDb 10).total_tasks = 10 ∧
    (spec_sprint_statistics statsDb 10).done_count = 3 ∧
    (spec_sprint_statistics statsDb 10).completion_rate = 30 ∧
    (spec_sprint_statistics statsDb 99).completion_rate = 0 := by
  refine ⟨by decide, by decide, by decide, ?_, ?_⟩
  · have h1 : (sprintTasks statsDb 10).length = 10 := by decide
    have h2 : countWithStatus (sprintTasks statsDb 10) "done" = 3 := by decide
    have : (spec_sprint_statistics statsDb 10).completion_rate =
        spec_completion_rate 3 10 := by
      simp only [spec_sprint_statistics]
      rw [h1, h2]
    rw [this]
    norm_num [spec_completion_rate, round2, round_eq]
  · have h1 : (sprintTasks statsDb 99).length = 0 := by decide
    have h2 : countWithStatus (sprintTasks statsDb 99) "done" = 0 := by decide
    have : (spec_sprint_statistics statsDb 99).completion_rate =
        spec_completion_rate 0 0 := by
      simp only [spec_sprint_statistics]
      rw [h1, h2]
    rw [this]
    norm_num [spec_completion_rate]

/-- C2 witness: an expired token is not authenticated, and dana's
deactivated account resolves to Forbidden, on the sample store. -/
theorem C2_auth_witness :
    isOkB (get_current_user sampleDb TokenDecode.expired) = false ∧
    isForbiddenR (get_current_user sampleDb (.payload (some "u-dana"))) = true := by
  constructor
  · obtain ⟨d, hd⟩ := (C2_auth_failure_kinds sampleDb TokenDecode.expired).1.mpr
      (Or.inr (Or.inr (Or.inl rfl)))
    rw [hd]
    rfl
  · obtain ⟨d, hd⟩ :=
      (C2_auth_failure_kinds sampleDb (.payload (some "u-dana"))).2.mpr
        ⟨"u-dana", danaUser, rfl, by decide, rfl⟩
    rw [hd]
    rfl

/-- C10 witness: "Lecturer" in the allowed list admits the LECTURER user
case-insensitively, and a student is rejected by an ADMIN-only gate. -/
theorem C10_gate_witness :
    require_role ["ADMIN", "Lecturer"] lectUser = .ok lectUser ∧
    require_role ["ADMIN"] aliceUser = .error (.forbidden "Access denied") := by
  constructor
  · exact (C10_role_gate ["ADMIN", "Lecturer"] lectUser).1.mpr
      ⟨"Lecturer", by simp, by decide⟩
  · exact (C10_role_gate ["ADMIN"] aliceUser).2.mpr (by decide)

end CNPM
